import Mathlib

/-!
Shallow embedding of the Study Planner backend (`registerRoutes.ts`):
the drizzle table declarations, the zod insert schemas derived from them,
the `DatabaseStorage` methods, and the Express route handlers.

The relational store is modelled as explicit state: one list of rows per
table plus one counter per `serial` primary key.  Each storage method is a
pure function on that state, translated statement-by-statement from the
source (`db.select().where(eq(...))` becomes `List.filter`, `[x] = rows`
becomes `List.head?`, `insert ... returning` appends a row built from the
payload plus the declared column defaults, `update ... set ... where`
maps the update over the matching rows, `delete ... where` filters them
out and reports `rowCount > 0`).  Numeric JSON values are modelled as
integers, which covers every integer column of the schema.
-/

/-- JSON values, the type of request bodies handed to the route handlers. -/
inductive Json where
  | null
  | bool (b : Bool)
  | num (n : Int)
  | str (s : String)
  | arr (elems : List Json)
  | obj (fields : List (String × Json))

/-- One field-level zod issue, as collected by `safeParse` into
`result.error.issues`: the offending key and a message. -/
structure Issue where
  path : String
  message : String
deriving Repr, DecidableEq

/-- First binding of a key in a JSON object field list. -/
def jLookup (o : List (String × Json)) (k : String) : Option Json :=
  (o.find? (fun p => p.1 == k)).map (fun p => p.2)

/-- zod: required `z.string()` field of an object. -/
def reqString (o : List (String × Json)) (k : String) : Except Issue String :=
  match jLookup o k with
  | some (.str s) => .ok s
  | some _ => .error ⟨k, "Expected string"⟩
  | none => .error ⟨k, "Required"⟩

/-- zod: required `z.number()` field of an object. -/
def reqInt (o : List (String × Json)) (k : String) : Except Issue Int :=
  match jLookup o k with
  | some (.num n) => .ok n
  | some _ => .error ⟨k, "Expected number"⟩
  | none => .error ⟨k, "Required"⟩

/-- zod: `z.string().optional()` — key may be absent, but `null` is rejected. -/
def optString (o : List (String × Json)) (k : String) : Except Issue (Option String) :=
  match jLookup o k with
  | none => .ok none
  | some (.str s) => .ok (some s)
  | some _ => .error ⟨k, "Expected string"⟩

/-- zod: `z.number().optional()`. -/
def optInt (o : List (String × Json)) (k : String) : Except Issue (Option Int) :=
  match jLookup o k with
  | none => .ok none
  | some (.num n) => .ok (some n)
  | some _ => .error ⟨k, "Expected number"⟩

/-- zod: `z.boolean().optional()`. -/
def optBool (o : List (String × Json)) (k : String) : Except Issue (Option Bool) :=
  match jLookup o k with
  | none => .ok none
  | some (.bool b) => .ok (some b)
  | some _ => .error ⟨k, "Expected boolean"⟩

/-- zod: `z.string().nullable().optional()` (nullable text column without
default).  Outer `none` = key absent, `some none` = explicit `null`. -/
def optNullableString (o : List (String × Json)) (k : String) :
    Except Issue (Option (Option String)) :=
  match jLookup o k with
  | none => .ok none
  | some .null => .ok (some none)
  | some (.str s) => .ok (some (some s))
  | some _ => .error ⟨k, "Expected string"⟩

/-- zod: `z.number().nullable().optional()` (nullable integer column with a
default, such as `actual_duration`). -/
def optNullableInt (o : List (String × Json)) (k : String) :
    Except Issue (Option (Option Int)) :=
  match jLookup o k with
  | none => .ok none
  | some .null => .ok (some none)
  | some (.num n) => .ok (some (some n))
  | some _ => .error ⟨k, "Expected number"⟩

/-- The issues contributed by one field check (empty when it succeeded). -/
def Except.issues {α : Type} : Except Issue α → List Issue
  | .error i => [i]
  | .ok _ => []

/-- Row of the `subjects` table. -/
structure Subject where
  id : Int
  name : String
  color : String
  icon : String
  currentTopic : Option String
  progress : Int
  totalHours : Int
deriving Repr, DecidableEq

/-- Validated output of `insertSubjectSchema` (`createInsertSchema(subjects)`
minus `id`): columns with defaults are optional, nullable columns are
optional-nullable, the rest are required. -/
structure InsertSubject where
  name : String
  color : Option String
  icon : Option String
  currentTopic : Option (Option String)
  progress : Option Int
  totalHours : Option Int
deriving Repr, DecidableEq

/-- `Partial<InsertSubject>`: the update set a PATCH body supplies.  A field
that is `none` is absent from the set. -/
structure SubjectUpdates where
  name : Option String
  color : Option String
  icon : Option String
  currentTopic : Option (Option String)
  progress : Option Int
  totalHours : Option Int
deriving Repr, DecidableEq

/-- Whether the update object has no keys (drizzle's `.set` rejects this). -/
def SubjectUpdates.isEmpty (u : SubjectUpdates) : Bool :=
  u.name.isNone && u.color.isNone && u.icon.isNone &&
  u.currentTopic.isNone && u.progress.isNone && u.totalHours.isNone

/-- Row produced by `insert into subjects ... returning`: payload fields plus
the declared column defaults for absent ones. -/
def mkSubject (id : Int) (v : InsertSubject) : Subject :=
  { id := id
    name := v.name
    color := v.color.getD "#4F46E5"
    icon := v.icon.getD "fas fa-book"
    currentTopic := v.currentTopic.getD none
    progress := v.progress.getD 0
    totalHours := v.totalHours.getD 0 }

/-- Effect of `update subjects set <u>` on one row: supplied columns are
overwritten, absent ones kept.  `id` is not in `InsertSubject`, so it can
never be part of the set. -/
def applySubjectUpdates (u : SubjectUpdates) (s : Subject) : Subject :=
  { id := s.id
    name := u.name.getD s.name
    color := u.color.getD s.color
    icon := u.icon.getD s.icon
    currentTopic := u.currentTopic.getD s.currentTopic
    progress := u.progress.getD s.progress
    totalHours := u.totalHours.getD s.totalHours }

/-- Row of the `study_sessions` table.  `actual_duration` is nullable with
default `0` (declared without `.notNull()`), hence `Option Int`. -/
structure StudySession where
  id : Int
  subjectId : Int
  title : String
  description : Option String
  startTime : String
  endTime : String
  date : String
  status : String
  actualDuration : Option Int
deriving Repr, DecidableEq

/-- Validated output of `insertStudySessionSchema`. -/
structure InsertStudySession where
  subjectId : Int
  title : String
  description : Option (Option String)
  startTime : String
  endTime : String
  date : String
  status : Option String
  actualDuration : Option (Option Int)
deriving Repr, DecidableEq

/-- `Partial<InsertStudySession>`. -/
structure SessionUpdates where
  subjectId : Option Int
  title : Option String
  description : Option (Option String)
  startTime : Option String
  endTime : Option String
  date : Option String
  status : Option String
  actualDuration : Option (Option Int)
deriving Repr, DecidableEq

/-- Whether the session update object has no keys. -/
def SessionUpdates.isEmpty (u : SessionUpdates) : Bool :=
  u.subjectId.isNone && u.title.isNone && u.description.isNone &&
  u.startTime.isNone && u.endTime.isNone && u.date.isNone &&
  u.status.isNone && u.actualDuration.isNone

/-- `insert into study_sessions ... returning`. -/
def mkStudySession (id : Int) (v : InsertStudySession) : StudySession :=
  { id := id
    subjectId := v.subjectId
    title := v.title
    description := v.description.getD none
    startTime := v.startTime
    endTime := v.endTime
    date := v.date
    status := v.status.getD "upcoming"
    actualDuration := v.actualDuration.getD (some 0) }

/-- `update study_sessions set <u>` on one row. -/
def applySessionUpdates (u : SessionUpdates) (s : StudySession) : StudySession :=
  { id := s.id
    subjectId := u.subjectId.getD s.subjectId
    title := u.title.getD s.title
    description := u.description.getD s.description
    startTime := u.startTime.getD s.startTime
    endTime := u.endTime.getD s.endTime
    date := u.date.getD s.date
    status := u.status.getD s.status
    actualDuration := u.actualDuration.getD s.actualDuration }

/-- Row of the `notes` table. -/
structure Note where
  id : Int
  subjectId : Int
  title : String
  content : String
  createdAt : String
deriving Repr, DecidableEq

/-- Validated output of `insertNoteSchema`: every column but `id` is
`notNull` without default, so all four fields are required. -/
structure InsertNote where
  subjectId : Int
  title : String
  content : String
  createdAt : String
deriving Repr, DecidableEq

/-- `Partial<InsertNote>`. -/
structure NoteUpdates where
  subjectId : Option Int
  title : Option String
  content : Option String
  createdAt : Option String
deriving Repr, DecidableEq

/-- Whether the note update object has no keys. -/
def NoteUpdates.isEmpty (u : NoteUpdates) : Bool :=
  u.subjectId.isNone && u.title.isNone && u.content.isNone && u.createdAt.isNone

/-- `insert into notes ... returning`. -/
def mkNote (id : Int) (v : InsertNote) : Note :=
  { id := id, subjectId := v.subjectId, title := v.title
    content := v.content, createdAt := v.createdAt }

/-- `update notes set <u>` on one row. -/
def applyNoteUpdates (u : NoteUpdates) (n : Note) : Note :=
  { id := n.id
    subjectId := u.subjectId.getD n.subjectId
    title := u.title.getD n.title
    content := u.content.getD n.content
    createdAt := u.createdAt.getD n.createdAt }

/-- Row of the `goals` table. -/
structure Goal where
  id : Int
  title : String
  description : Option String
  targetDate : String
  progress : Int
  isCompleted : Bool
deriving Repr, DecidableEq

/-- Validated output of `insertGoalSchema`. -/
structure InsertGoal where
  title : String
  description : Option (Option String)
  targetDate : String
  progress : Option Int
  isCompleted : Option Bool
deriving Repr, DecidableEq

/-- `Partial<InsertGoal>`. -/
structure GoalUpdates where
  title : Option String
  description : Option (Option String)
  targetDate : Option String
  progress : Option Int
  isCompleted : Option Bool
deriving Repr, DecidableEq

/-- Whether the goal update object has no keys. -/
def GoalUpdates.isEmpty (u : GoalUpdates) : Bool :=
  u.title.isNone && u.description.isNone && u.targetDate.isNone &&
  u.progress.isNone && u.isCompleted.isNone

/-- `insert into goals ... returning`. -/
def mkGoal (id : Int) (v : InsertGoal) : Goal :=
  { id := id
    title := v.title
    description := v.description.getD none
    targetDate := v.targetDate
    progress := v.progress.getD 0
    isCompleted := v.isCompleted.getD false }

/-- `update goals set <u>` on one row. -/
def applyGoalUpdates (u : GoalUpdates) (g : Goal) : Goal :=
  { id := g.id
    title := u.title.getD g.title
    description := u.description.getD g.description
    targetDate := u.targetDate.getD g.targetDate
    progress := u.progress.getD g.progress
    isCompleted := u.isCompleted.getD g.isCompleted }

/-- Row of the `study_stats` table. -/
structure StudyStatsRow where
  id : Int
  date : String
  totalMinutes : Int
  sessionsCompleted : Int
  streak : Int
deriving Repr, DecidableEq

/-- Validated output of `insertStudyStatsSchema`: `date` required, the three
defaulted integer columns optional. -/
structure InsertStudyStats where
  date : String
  totalMinutes : Option Int
  sessionsCompleted : Option Int
  streak : Option Int
deriving Repr, DecidableEq

/-- `insert into study_stats ... returning`. -/
def mkStatsRow (id : Int) (v : InsertStudyStats) : StudyStatsRow :=
  { id := id
    date := v.date
    totalMinutes := v.totalMinutes.getD 0
    sessionsCompleted := v.sessionsCompleted.getD 0
    streak := v.streak.getD 0 }

/-- `update study_stats set <insertStats>` on one row: zod omits the keys the
payload did not supply, and drizzle sets only the keys present, so the
defaulted columns keep their stored values when absent. -/
def applyStatsSet (v : InsertStudyStats) (r : StudyStatsRow) : StudyStatsRow :=
  { id := r.id
    date := v.date
    totalMinutes := v.totalMinutes.getD r.totalMinutes
    sessionsCompleted := v.sessionsCompleted.getD r.sessionsCompleted
    streak := v.streak.getD r.streak }

/-- The relational store: one list of rows per table, one counter per
`serial` primary key (the next id Postgres will assign). -/
structure DB where
  subjects : List Subject
  studySessions : List StudySession
  notes : List Note
  goals : List Goal
  studyStats : List StudyStatsRow
  nextSubjectId : Int
  nextSessionId : Int
  nextNoteId : Int
  nextGoalId : Int
  nextStatsId : Int
deriving Repr, DecidableEq

/-- `getSubjects`: `select * from subjects`. -/
def getSubjects (db : DB) : List Subject :=
  db.subjects

/-- `getSubject`: select where `id` matches, destructure the first row,
`undefined` (here `none`) when absent. -/
def getSubject (id : Int) (db : DB) : Option Subject :=
  (db.subjects.filter (fun s => s.id == id)).head?

/-- `createSubject`: insert with the payload values, returning the stored
row.  The serial key hands out `nextSubjectId` and advances. -/
def createSubject (v : InsertSubject) (db : DB) : Subject × DB :=
  let s := mkSubject db.nextSubjectId v
  (s, { db with subjects := db.subjects ++ [s], nextSubjectId := db.nextSubjectId + 1 })

/-- `updateSubject`: `db.update(subjects).set(updates).where(eq(id)).returning()`.
drizzle's `.set` throws `Error("No values to set")` when the update object
has no keys, before any SQL is issued, so the store is untouched in that
case; otherwise every matching row gets the update set applied and the
first returned row (or `none`) comes back. -/
def updateSubject (id : Int) (u : SubjectUpdates) (db : DB) :
    Except String (Option Subject) × DB :=
  if u.isEmpty then (.error "No values to set", db)
  else
    let updated := db.subjects.map (fun s => if s.id == id then applySubjectUpdates u s else s)
    ((.ok ((updated.filter (fun s => s.id == id)).head?)),
      { db with subjects := updated })

/-- `deleteSubject`: delete where `id` matches; the result is
`rowCount > 0`. -/
def deleteSubject (id : Int) (db : DB) : Bool × DB :=
  (!(db.subjects.filter (fun s => s.id == id)).isEmpty,
    { db with subjects := db.subjects.filter (fun s => !(s.id == id)) })

/-- `getStudySessions`. -/
def getStudySessions (db : DB) : List StudySession :=
  db.studySessions

/-- `getStudySessionsByDate`: select where `date` matches. -/
def getStudySessionsByDate (date : String) (db : DB) : List StudySession :=
  db.studySessions.filter (fun s => s.date == date)

/-- `getStudySession`. -/
def getStudySession (id : Int) (db : DB) : Option StudySession :=
  (db.studySessions.filter (fun s => s.id == id)).head?

/-- `createStudySession`. -/
def createStudySession (v : InsertStudySession) (db : DB) : StudySession × DB :=
  let s := mkStudySession db.nextSessionId v
  (s, { db with studySessions := db.studySessions ++ [s], nextSessionId := db.nextSessionId + 1 })

/-- `updateStudySession` (same shape as `updateSubject`). -/
def updateStudySession (id : Int) (u : SessionUpdates) (db : DB) :
    Except String (Option StudySession) × DB :=
  if u.isEmpty then (.error "No values to set", db)
  else
    let updated := db.studySessions.map
      (fun s => if s.id == id then applySessionUpdates u s else s)
    ((.ok ((updated.filter (fun s => s.id == id)).head?)),
      { db with studySessions := updated })

/-- `deleteStudySession`. -/
def deleteStudySession (id : Int) (db : DB) : Bool × DB :=
  (!(db.studySessions.filter (fun s => s.id == id)).isEmpty,
    { db with studySessions := db.studySessions.filter (fun s => !(s.id == id)) })

/-- Ascending-by-`created_at` ordering used by the notes queries
(`orderBy(notes.createdAt)` on a text column, modelled as lexicographic
string order; `mergeSort` is stable like the database sort). -/
def sortByCreatedAt (l : List Note) : List Note :=
  l.mergeSort (fun a b => a.createdAt ≤ b.createdAt)

/-- `getNotes`: `select * from notes order by created_at`. -/
def getNotes (db : DB) : List Note :=
  sortByCreatedAt db.notes

/-- `getNotesBySubject`: select where `subject_id` matches, ordered by
`created_at`. -/
def getNotesBySubject (subjectId : Int) (db : DB) : List Note :=
  sortByCreatedAt (db.notes.filter (fun n => n.subjectId == subjectId))

/-- `getNote`. -/
def getNote (id : Int) (db : DB) : Option Note :=
  (db.notes.filter (fun n => n.id == id)).head?

/-- `createNote`. -/
def createNote (v : InsertNote) (db : DB) : Note × DB :=
  let n := mkNote db.nextNoteId v
  (n, { db with notes := db.notes ++ [n], nextNoteId := db.nextNoteId + 1 })

/-- `updateNote`. -/
def updateNote (id : Int) (u : NoteUpdates) (db : DB) :
    Except String (Option Note) × DB :=
  if u.isEmpty then (.error "No values to set", db)
  else
    let updated := db.notes.map (fun n => if n.id == id then applyNoteUpdates u n else n)
    ((.ok ((updated.filter (fun n => n.id == id)).head?)),
      { db with notes := updated })

/-- `deleteNote`. -/
def deleteNote (id : Int) (db : DB) : Bool × DB :=
  (!(db.notes.filter (fun n => n.id == id)).isEmpty,
    { db with notes := db.notes.filter (fun n => !(n.id == id)) })

/-- `getGoals`. -/
def getGoals (db : DB) : List Goal :=
  db.goals

/-- `getGoal`. -/
def getGoal (id : Int) (db : DB) : Option Goal :=
  (db.goals.filter (fun g => g.id == id)).head?

/-- `createGoal`. -/
def createGoal (v : InsertGoal) (db : DB) : Goal × DB :=
  let g := mkGoal db.nextGoalId v
  (g, { db with goals := db.goals ++ [g], nextGoalId := db.nextGoalId + 1 })

/-- `updateGoal`. -/
def updateGoal (id : Int) (u : GoalUpdates) (db : DB) :
    Except String (Option Goal) × DB :=
  if u.isEmpty then (.error "No values to set", db)
  else
    let updated := db.goals.map (fun g => if g.id == id then applyGoalUpdates u g else g)
    ((.ok ((updated.filter (fun g => g.id == id)).head?)),
      { db with goals := updated })

/-- `deleteGoal`. -/
def deleteGoal (id : Int) (db : DB) : Bool × DB :=
  (!(db.goals.filter (fun g => g.id == id)).isEmpty,
    { db with goals := db.goals.filter (fun g => !(g.id == id)) })

/-- `getStudyStats`. -/
def getStudyStats (db : DB) : List StudyStatsRow :=
  db.studyStats

/-- `getStudyStatsByDate`: select where `date` matches, first row or
`undefined`. -/
def getStudyStatsByDate (date : String) (db : DB) : Option StudyStatsRow :=
  (db.studyStats.filter (fun r => r.date == date)).head?

/-- `createOrUpdateStudyStats`: look up by `date`; if a row exists, update
every row with that `date` with the payload's field set and return the
first; otherwise insert a fresh row.  A non-atomic check-then-act, modelled
here as the sequential composition the source performs. -/
def createOrUpdateStudyStats (v : InsertStudyStats) (db : DB) : StudyStatsRow × DB :=
  match getStudyStatsByDate v.date db with
  | some _ =>
    let updated := db.studyStats.map
      (fun r => if r.date == v.date then applyStatsSet v r else r)
    (((updated.filter (fun r => r.date == v.date)).head?).getD (mkStatsRow 0 v),
      { db with studyStats := updated })
  | none =>
    let r := mkStatsRow db.nextStatsId v
    (r, { db with studyStats := db.studyStats ++ [r], nextStatsId := db.nextStatsId + 1 })

/-- `insertSubjectSchema.safeParse`: checks each declared field against the
schema, collecting every field-level issue in declaration order; a
non-object body is a single top-level issue. -/
def parseInsertSubject (j : Json) : Except (List Issue) InsertSubject :=
  match j with
  | .obj o =>
    let name := reqString o "name"
    let color := optString o "color"
    let icon := optString o "icon"
    let currentTopic := optNullableString o "currentTopic"
    let progress := optInt o "progress"
    let totalHours := optInt o "totalHours"
    match name, color, icon, currentTopic, progress, totalHours with
    | .ok a, .ok b, .ok c, .ok d, .ok e, .ok f =>
      .ok { name := a, color := b, icon := c, currentTopic := d,
            progress := e, totalHours := f }
    | n, c, i, t, p, h =>
      .error (n.issues ++ c.issues ++ i.issues ++ t.issues ++ p.issues ++ h.issues)
  | _ => .error [⟨"", "Expected object"⟩]

/-- `insertStudySessionSchema.safeParse`. -/
def parseInsertStudySession (j : Json) : Except (List Issue) InsertStudySession :=
  match j with
  | .obj o =>
    let subjectId := reqInt o "subjectId"
    let title := reqString o "title"
    let description := optNullableString o "description"
    let startTime := reqString o "startTime"
    let endTime := reqString o "endTime"
    let date := reqString o "date"
    let status := optString o "status"
    let actualDuration := optNullableInt o "actualDuration"
    match subjectId, title, description, startTime, endTime, date, status, actualDuration with
    | .ok a, .ok b, .ok c, .ok d, .ok e, .ok f, .ok g, .ok h =>
      .ok { subjectId := a, title := b, description := c, startTime := d,
            endTime := e, date := f, status := g, actualDuration := h }
    | a, b, c, d, e, f, g, h =>
      .error (a.issues ++ b.issues ++ c.issues ++ d.issues ++ e.issues ++
              f.issues ++ g.issues ++ h.issues)
  | _ => .error [⟨"", "Expected object"⟩]

/-- `insertNoteSchema.safeParse`. -/
def parseInsertNote (j : Json) : Except (List Issue) InsertNote :=
  match j with
  | .obj o =>
    let subjectId := reqInt o "subjectId"
    let title := reqString o "title"
    let content := reqString o "content"
    let createdAt := reqString o "createdAt"
    match subjectId, title, content, createdAt with
    | .ok a, .ok b, .ok c, .ok d =>
      .ok { subjectId := a, title := b, content := c, createdAt := d }
    | a, b, c, d =>
      .error (a.issues ++ b.issues ++ c.issues ++ d.issues)
  | _ => .error [⟨"", "Expected object"⟩]

/-- `insertGoalSchema.safeParse`. -/
def parseInsertGoal (j : Json) : Except (List Issue) InsertGoal :=
  match j with
  | .obj o =>
    let title := reqString o "title"
    let description := optNullableString o "description"
    let targetDate := reqString o "targetDate"
    let progress := optInt o "progress"
    let isCompleted := optBool o "isCompleted"
    match title, description, targetDate, progress, isCompleted with
    | .ok a, .ok b, .ok c, .ok d, .ok e =>
      .ok { title := a, description := b, targetDate := c,
            progress := d, isCompleted := e }
    | a, b, c, d, e =>
      .error (a.issues ++ b.issues ++ c.issues ++ d.issues ++ e.issues)
  | _ => .error [⟨"", "Expected object"⟩]

/-- `insertStudyStatsSchema.safeParse`. -/
def parseInsertStudyStats (j : Json) : Except (List Issue) InsertStudyStats :=
  match j with
  | .obj o =>
    let date := reqString o "date"
    let totalMinutes := optInt o "totalMinutes"
    let sessionsCompleted := optInt o "sessionsCompleted"
    let streak := optInt o "streak"
    match date, totalMinutes, sessionsCompleted, streak with
    | .ok a, .ok b, .ok c, .ok d =>
      .ok { date := a, totalMinutes := b, sessionsCompleted := c, streak := d }
    | a, b, c, d =>
      .error (a.issues ++ b.issues ++ c.issues ++ d.issues)
  | _ => .error [⟨"", "Expected object"⟩]

/-- The JSON payloads the handlers serialize with `res.json(...)` /
`res.status(...).send()`. -/
inductive Body where
  | subjectJson (s : Subject)
  | subjectListJson (l : List Subject)
  | sessionJson (s : StudySession)
  | sessionListJson (l : List StudySession)
  | noteJson (n : Note)
  | noteListJson (l : List Note)
  | goalJson (g : Goal)
  | goalListJson (l : List Goal)
  | statsJson (r : StudyStatsRow)
  | statsListJson (l : List StudyStatsRow)
  | statsOrNullJson (o : Option StudyStatsRow)
  | messageJson (message : String)
  | validationJson (message : String) (errors : List Issue)
  | empty
deriving Repr, DecidableEq

/-- An HTTP response: status code and serialized body. -/
structure Response where
  status : Nat
  body : Body
deriving Repr, DecidableEq

/-- `parseInt` as the handlers use it on `req.query.subjectId`: optional
leading whitespace and sign, then the longest digit run; no digits means
`NaN` (`none`). -/
def jsParseInt (s : String) : Option Int :=
  let afterSign : List Char → Bool × List Char := fun cs =>
    match cs with
    | c :: rest => if c == '-' then (true, rest) else if c == '+' then (false, rest) else (false, cs)
    | [] => (false, [])
  let (neg, cs) := afterSign (s.data.dropWhile (fun c => c.isWhitespace))
  let digits := cs.takeWhile (fun c => c.isDigit)
  if digits.isEmpty then none
  else
    let n : Nat := digits.foldl (fun a c => a * 10 + (c.toNat - 48)) 0
    some (if neg then -(n : Int) else (n : Int))

/-- `GET /api/subjects`. -/
def getSubjectsRoute (db : DB) : Response × DB :=
  (⟨200, .subjectListJson (getSubjects db)⟩, db)

/-- `GET /api/subjects/:id` (with `id` the `parseInt` of the path
parameter): 404 when the storage lookup is empty, else 200. -/
def getSubjectRoute (id : Int) (db : DB) : Response × DB :=
  match getSubject id db with
  | none => (⟨404, .messageJson "Subject not found"⟩, db)
  | some s => (⟨200, .subjectJson s⟩, db)

/-- `POST /api/subjects`: validate with `insertSubjectSchema.safeParse`;
400 with the issue list on failure, else create and 201. -/
def postSubjectsRoute (body : Json) (db : DB) : Response × DB :=
  match parseInsertSubject body with
  | .error issues => (⟨400, .validationJson "Invalid subject data" issues⟩, db)
  | .ok v =>
    let (s, db1) := createSubject v db
    (⟨201, .subjectJson s⟩, db1)

/-- `PATCH /api/subjects/:id`: the raw body is passed to storage as the
update set; a thrown storage error is caught and reported as 500. -/
def patchSubjectRoute (id : Int) (u : SubjectUpdates) (db : DB) : Response × DB :=
  match updateSubject id u db with
  | (.error _, db1) => (⟨500, .messageJson "Failed to update subject"⟩, db1)
  | (.ok none, db1) => (⟨404, .messageJson "Subject not found"⟩, db1)
  | (.ok (some s), db1) => (⟨200, .subjectJson s⟩, db1)

/-- `DELETE /api/subjects/:id`: 204 on `true`, 404 on `false`. -/
def deleteSubjectRoute (id : Int) (db : DB) : Response × DB :=
  let (success, db1) := deleteSubject id db
  if success then (⟨204, .empty⟩, db1)
  else (⟨404, .messageJson "Subject not found"⟩, db1)

/-- `GET /api/study-sessions`: `if (date)` — a present, non-empty `date`
query selects the by-date filter, otherwise all sessions are returned
(the empty string is falsy in JavaScript). -/
def getStudySessionsRoute (dateParam : Option String) (db : DB) : Response × DB :=
  match dateParam with
  | some d =>
    if d == "" then (⟨200, .sessionListJson (getStudySessions db)⟩, db)
    else (⟨200, .sessionListJson (getStudySessionsByDate d db)⟩, db)
  | none => (⟨200, .sessionListJson (getStudySessions db)⟩, db)

/-- `POST /api/study-sessions`. -/
def postStudySessionsRoute (body : Json) (db : DB) : Response × DB :=
  match parseInsertStudySession body with
  | .error issues => (⟨400, .validationJson "Invalid session data" issues⟩, db)
  | .ok v =>
    let (s, db1) := createStudySession v db
    (⟨201, .sessionJson s⟩, db1)

/-- `PATCH /api/study-sessions/:id`. -/
def patchStudySessionRoute (id : Int) (u : SessionUpdates) (db : DB) : Response × DB :=
  match updateStudySession id u db with
  | (.error _, db1) => (⟨500, .messageJson "Failed to update study session"⟩, db1)
  | (.ok none, db1) => (⟨404, .messageJson "Study session not found"⟩, db1)
  | (.ok (some s), db1) => (⟨200, .sessionJson s⟩, db1)

/-- `DELETE /api/study-sessions/:id`. -/
def deleteStudySessionRoute (id : Int) (db : DB) : Response × DB :=
  let (success, db1) := deleteStudySession id db
  if success then (⟨204, .empty⟩, db1)
  else (⟨404, .messageJson "Study session not found"⟩, db1)

/-- `GET /api/notes`: `if (subjectId)` then filter by
`parseInt(subjectId)`, else all notes. -/
def getNotesRoute (subjectIdParam : Option String) (db : DB) : Response × DB :=
  match subjectIdParam with
  | some s =>
    if s == "" then (⟨200, .noteListJson (getNotes db)⟩, db)
    else
      match jsParseInt s with
      | some sid => (⟨200, .noteListJson (getNotesBySubject sid db)⟩, db)
      | none => (⟨500, .messageJson "Failed to fetch notes"⟩, db)
  | none => (⟨200, .noteListJson (getNotes db)⟩, db)

/-- `POST /api/notes`. -/
def postNotesRoute (body : Json) (db : DB) : Response × DB :=
  match parseInsertNote body with
  | .error issues => (⟨400, .validationJson "Invalid note data" issues⟩, db)
  | .ok v =>
    let (n, db1) := createNote v db
    (⟨201, .noteJson n⟩, db1)

/-- `PATCH /api/notes/:id`. -/
def patchNoteRoute (id : Int) (u : NoteUpdates) (db : DB) : Response × DB :=
  match updateNote id u db with
  | (.error _, db1) => (⟨500, .messageJson "Failed to update note"⟩, db1)
  | (.ok none, db1) => (⟨404, .messageJson "Note not found"⟩, db1)
  | (.ok (some n), db1) => (⟨200, .noteJson n⟩, db1)

/-- `DELETE /api/notes/:id`. -/
def deleteNoteRoute (id : Int) (db : DB) : Response × DB :=
  let (success, db1) := deleteNote id db
  if success then (⟨204, .empty⟩, db1)
  else (⟨404, .messageJson "Note not found"⟩, db1)

/-- `GET /api/goals`. -/
def getGoalsRoute (db : DB) : Response × DB :=
  (⟨200, .goalListJson (getGoals db)⟩, db)

/-- `POST /api/goals`. -/
def postGoalsRoute (body : Json) (db : DB) : Response × DB :=
  match parseInsertGoal body with
  | .error issues => (⟨400, .validationJson "Invalid goal data" issues⟩, db)
  | .ok v =>
    let (g, db1) := createGoal v db
    (⟨201, .goalJson g⟩, db1)

/-- `PATCH /api/goals/:id`. -/
def patchGoalRoute (id : Int) (u : GoalUpdates) (db : DB) : Response × DB :=
  match updateGoal id u db with
  | (.error _, db1) => (⟨500, .messageJson "Failed to update goal"⟩, db1)
  | (.ok none, db1) => (⟨404, .messageJson "Goal not found"⟩, db1)
  | (.ok (some g), db1) => (⟨200, .goalJson g⟩, db1)

/-- `DELETE /api/goals/:id`. -/
def deleteGoalRoute (id : Int) (db : DB) : Response × DB :=
  let (success, db1) := deleteGoal id db
  if success then (⟨204, .empty⟩, db1)
  else (⟨404, .messageJson "Goal not found"⟩, db1)

/-- `GET /api/study-stats`: with a truthy `date` query, the single row or
`null`; otherwise the full list. -/
def getStudyStatsRoute (dateParam : Option String) (db : DB) : Response × DB :=
  match dateParam with
  | some d =>
    if d == "" then (⟨200, .statsListJson (getStudyStats db)⟩, db)
    else (⟨200, .statsOrNullJson (getStudyStatsByDate d db)⟩, db)
  | none => (⟨200, .statsListJson (getStudyStats db)⟩, db)

/-- `POST /api/study-stats`: validate, then upsert; the success status is
200 (`res.json`), not 201. -/
def postStudyStatsRoute (body : Json) (db : DB) : Response × DB :=
  match parseInsertStudyStats body with
  | .error issues => (⟨400, .validationJson "Invalid stats data" issues⟩, db)
  | .ok v =>
    let (r, db1) := createOrUpdateStudyStats v db
    (⟨200, .statsJson r⟩, db1)

/-! ## Sample data used by witnesses and counterexamples -/

/-- Fresh store, serial counters at 1. -/
def dbEmpty : DB := ⟨[], [], [], [], [], 1, 1, 1, 1, 1⟩

/-- A stored subject row. -/
def sampleSubject : Subject := ⟨1, "Math", "#4F46E5", "fas fa-book", none, 0, 0⟩

/-- A stored study session row. -/
def sampleSession : StudySession :=
  ⟨1, 1, "Algebra", none, "09:00", "10:00", "2024-01-01", "upcoming", some 0⟩

/-- A stored note row. -/
def sampleNote : Note := ⟨1, 1, "Limits", "Definition of limit", "2024-01-01T10:00"⟩

/-- A stored goal row. -/
def sampleGoal : Goal := ⟨1, "Pass exam", none, "2024-12-31", 0, false⟩

/-- A store holding one row of each entity. -/
def dbSample : DB := ⟨[sampleSubject], [sampleSession], [sampleNote], [sampleGoal], [], 2, 2, 2, 2, 1⟩

/-- The update set corresponding to the PATCH body `{}`. -/
def emptySubjectUpdates : SubjectUpdates := ⟨none, none, none, none, none, none⟩

/-! ## Helper lemmas -/

/-- Filtering after a point-wise update that touches exactly the matching
elements and keeps them matching. -/
theorem filter_map_update {α : Type} (p : α → Bool) (f : α → α)
    (hf : ∀ x, p x = true → p (f x) = true) (l : List α) :
    (l.map (fun x => if p x then f x else x)).filter p = (l.filter p).map f := by
  induction l with
  | nil => rfl
  | cons x xs ih =>
    by_cases hx : p x = true
    · simp only [List.map_cons, List.filter_cons, hx, if_pos, hf x hx, ih]
    · simp only [List.map_cons, List.filter_cons, if_neg hx,
        Bool.not_eq_true] at *
      simp [hx, ih]

/-- A list whose elements all fail `p` filters to `[]`. -/
theorem filter_eq_nil_of_forall {α : Type} (p : α → Bool) (l : List α)
    (h : ∀ x ∈ l, p x = false) : l.filter p = [] := by
  rw [List.filter_eq_nil_iff]
  intro a ha
  simp [h a ha]

/-- Filtering with `p` after keeping only the elements failing `p`. -/
theorem filter_filter_not {α : Type} (p : α → Bool) (l : List α) :
    (l.filter (fun x => !(p x))).filter p = [] := by
  rw [List.filter_eq_nil_iff]
  intro a ha
  have := List.of_mem_filter ha
  simp_all

/-- C8: `deleteSubject` touches only the `subjects` table — the study
session, note, goal, and stats rows are exactly the ones stored before, and
the subjects that remain are exactly those whose id differs; there is no
deletion cascade. -/
theorem deleteSubject_no_cascade (db : DB) (id : Int) :
    (deleteSubject id db).2.studySessions = db.studySessions ∧
    (deleteSubject id db).2.notes = db.notes ∧
    (deleteSubject id db).2.goals = db.goals ∧
    (deleteSubject id db).2.studyStats = db.studyStats ∧
    (deleteSubject id db).2.subjects = db.subjects.filter (fun s => !(s.id == id)) :=
  ⟨rfl, rfl, rfl, rfl, rfl⟩

/-- C10: a PATCH whose body is the empty object reaches `updateSubject`
with an empty update set; drizzle's `.set({})` throws, the handler catches,
and the response is 500 with the store untouched — not a 200 no-op — even
when a row with that id exists. -/
theorem empty_patch_gives_500 (db : DB) (id : Int) (s : Subject)
    (hrow : getSubject id db = some s) :
    patchSubjectRoute id emptySubjectUpdates db =
      (⟨500, .messageJson "Failed to update subject"⟩, db) ∧
    (patchSubjectRoute id emptySubjectUpdates db).1.status ≠ 200 := by
  constructor
  · rfl
  · intro h
    simp [patchSubjectRoute, updateSubject, emptySubjectUpdates,
      SubjectUpdates.isEmpty] at h

/-- Witness for `empty_patch_gives_500`: the store holds subject 1, and the
empty PATCH on id 1 still yields 500 with the store unchanged. -/
theorem empty_patch_gives_500_witness :
    patchSubjectRoute 1 emptySubjectUpdates dbSample =
      (⟨500, .messageJson "Failed to update subject"⟩, dbSample) :=
  (empty_patch_gives_500 dbSample 1 sampleSubject (by decide)).1

/-- C7: on every create route, a body that fails schema validation is
answered with 400 carrying the message and the structured issue list, the
store is untouched, and the failure is never surfaced as a 500. -/
theorem invalid_create_body_gives_400 (db : DB) (j : Json) (e : List Issue) :
    (parseInsertSubject j = .error e →
      postSubjectsRoute j db = (⟨400, .validationJson "Invalid subject data" e⟩, db)) ∧
    (parseInsertStudySession j = .error e →
      postStudySessionsRoute j db = (⟨400, .validationJson "Invalid session data" e⟩, db)) ∧
    (parseInsertNote j = .error e →
      postNotesRoute j db = (⟨400, .validationJson "Invalid note data" e⟩, db)) ∧
    (parseInsertGoal j = .error e →
      postGoalsRoute j db = (⟨400, .validationJson "Invalid goal data" e⟩, db)) ∧
    (parseInsertStudyStats j = .error e →
      postStudyStatsRoute j db = (⟨400, .validationJson "Invalid stats data" e⟩, db)) := by
  refine ⟨fun h => ?_, fun h => ?_, fun h => ?_, fun h => ?_, fun h => ?_⟩
  · unfold postSubjectsRoute
    rw [h]
  · unfold postStudySessionsRoute
    rw [h]
  · unfold postNotesRoute
    rw [h]
  · unfold postGoalsRoute
    rw [h]
  · unfold postStudyStatsRoute
    rw [h]

/-- Witness for `invalid_create_body_gives_400`: the empty object body is
rejected by all five create routes with 400 and the missing-field issues. -/
theorem invalid_create_body_gives_400_witness :
    postSubjectsRoute (Json.obj []) dbEmpty =
      (⟨400, .validationJson "Invalid subject data" [⟨"name", "Required"⟩]⟩, dbEmpty) ∧
    postStudySessionsRoute (Json.obj []) dbEmpty =
      (⟨400, .validationJson "Invalid session data"
        [⟨"subjectId", "Required"⟩, ⟨"title", "Required"⟩, ⟨"startTime", "Required"⟩,
         ⟨"endTime", "Required"⟩, ⟨"date", "Required"⟩]⟩, dbEmpty) ∧
    postNotesRoute (Json.obj []) dbEmpty =
      (⟨400, .validationJson "Invalid note data"
        [⟨"subjectId", "Required"⟩, ⟨"title", "Required"⟩, ⟨"content", "Required"⟩,
         ⟨"createdAt", "Required"⟩]⟩, dbEmpty) ∧
    postGoalsRoute (Json.obj []) dbEmpty =
      (⟨400, .validationJson "Invalid goal data"
        [⟨"title", "Required"⟩, ⟨"targetDate", "Required"⟩]⟩, dbEmpty) ∧
    postStudyStatsRoute (Json.obj []) dbEmpty =
      (⟨400, .validationJson "Invalid stats data" [⟨"date", "Required"⟩]⟩, dbEmpty) :=
  ⟨(invalid_create_body_gives_400 dbEmpty (Json.obj []) [⟨"name", "Required"⟩]).1 rfl,
   (invalid_create_body_gives_400 dbEmpty (Json.obj [])
     [⟨"subjectId", "Required"⟩, ⟨"title", "Required"⟩, ⟨"startTime", "Required"⟩,
      ⟨"endTime", "Required"⟩, ⟨"date", "Required"⟩]).2.1 rfl,
   (invalid_create_body_gives_400 dbEmpty (Json.obj [])
     [⟨"subjectId", "Required"⟩, ⟨"title", "Required"⟩, ⟨"content", "Required"⟩,
      ⟨"createdAt", "Required"⟩]).2.2.1 rfl,
   (invalid_create_body_gives_400 dbEmpty (Json.obj [])
     [⟨"title", "Required"⟩, ⟨"targetDate", "Required"⟩]).2.2.2.1 rfl,
   (invalid_create_body_gives_400 dbEmpty (Json.obj []) [⟨"date", "Required"⟩]).2.2.2.2 rfl⟩

/-- C9: both notes queries return their rows in ascending `createdAt`
order (an ordering guarantee the route contract in the spec does not
state), and they return exactly the stored rows, respectively exactly the
stored rows with the requested `subjectId`. -/
theorem notes_sorted_by_createdAt (db : DB) (sid : Int) :
    List.Pairwise (fun a b : Note => a.createdAt ≤ b.createdAt) (getNotes db) ∧
    List.Pairwise (fun a b : Note => a.createdAt ≤ b.createdAt) (getNotesBySubject sid db) ∧
    (∀ n : Note, n ∈ getNotes db ↔ n ∈ db.notes) ∧
    (∀ n : Note, n ∈ getNotesBySubject sid db ↔ (n ∈ db.notes ∧ n.subjectId = sid)) := by
  have htrans : ∀ a b c : Note,
      (decide (a.createdAt ≤ b.createdAt) = true) →
      (decide (b.createdAt ≤ c.createdAt) = true) →
      (decide (a.createdAt ≤ c.createdAt) = true) := by
    intro a b c h1 h2
    simp only [decide_eq_true_eq] at *
    exact le_trans h1 h2
  have htotal : ∀ a b : Note,
      (decide (a.createdAt ≤ b.createdAt) || decide (b.createdAt ≤ a.createdAt)) = true := by
    intro a b
    simpa using le_total a.createdAt b.createdAt
  refine ⟨?_, ?_, ?_, ?_⟩
  · have := List.sorted_mergeSort htrans htotal db.notes
    exact this.imp (fun h => by simpa using h)
  · have := List.sorted_mergeSort htrans htotal (db.notes.filter (fun n => n.subjectId == sid))
    exact this.imp (fun h => by simpa using h)
  · intro n
    exact (List.mergeSort_perm db.notes _).mem_iff
  · intro n
    simp only [getNotesBySubject, sortByCreatedAt]
    rw [(List.mergeSort_perm (db.notes.filter (fun m => m.subjectId == sid)) _).mem_iff]
    simp [List.mem_filter]

/-- Absent-id behavior of the subject storage methods and routes. -/
theorem subject_absent_facts (db : DB) (id : Int) (us : SubjectUpdates)
    (hs : ∀ x ∈ db.subjects, x.id ≠ id) (hus : us.isEmpty = false) :
    getSubject id db = none ∧ (getSubjectRoute id db).1.status = 404 ∧
    (updateSubject id us db).1 = .ok none ∧ (patchSubjectRoute id us db).1.status = 404 ∧
    (deleteSubject id db).1 = false ∧ (deleteSubjectRoute id db).1.status = 404 := by
  have h0 : db.subjects.filter (fun s => s.id == id) = [] :=
    filter_eq_nil_of_forall _ _ (fun x hx => by
      simp only [beq_eq_false_iff_ne]
      exact hs x hx)
  have hget : getSubject id db = none := by simp [getSubject, h0]
  have hupd : (updateSubject id us db).1 = .ok none := by
    simp [updateSubject, hus, h0]
    intro x hx
    rw [if_neg (hs x hx)]
    exact hs x hx
  have hdel : (deleteSubject id db).1 = false := by
    simp [deleteSubject, h0]
  refine ⟨hget, ?_, hupd, ?_, hdel, ?_⟩
  · simp [getSubjectRoute, hget]
  · rcases hu : updateSubject id us db with ⟨r, db1⟩
    rw [hu] at hupd
    simp only at hupd
    subst hupd
    simp [patchSubjectRoute, hu]
  · rcases hd : deleteSubject id db with ⟨b, db1⟩
    rw [hd] at hdel
    simp only at hdel
    subst hdel
    simp [deleteSubjectRoute, hd]

/-- Absent-id behavior of the study session storage methods and routes. -/
theorem session_absent_facts (db : DB) (id : Int) (u : SessionUpdates)
    (hs : ∀ x ∈ db.studySessions, x.id ≠ id) (hu0 : u.isEmpty = false) :
    getStudySession id db = none ∧
    (updateStudySession id u db).1 = .ok none ∧
    (patchStudySessionRoute id u db).1.status = 404 ∧
    (deleteStudySession id db).1 = false ∧
    (deleteStudySessionRoute id db).1.status = 404 := by
  have h0 : db.studySessions.filter (fun s => s.id == id) = [] :=
    filter_eq_nil_of_forall _ _ (fun x hx => by
      simp only [beq_eq_false_iff_ne]
      exact hs x hx)
  have hget : getStudySession id db = none := by simp [getStudySession, h0]
  have hupd : (updateStudySession id u db).1 = .ok none := by
    simp [updateStudySession, hu0, h0]
    intro x hx
    rw [if_neg (hs x hx)]
    exact hs x hx
  have hdel : (deleteStudySession id db).1 = false := by
    simp [deleteStudySession, h0]
  refine ⟨hget, hupd, ?_, hdel, ?_⟩
  · rcases hueq : updateStudySession id u db with ⟨r, db1⟩
    rw [hueq] at hupd
    simp only at hupd
    subst hupd
    simp [patchStudySessionRoute, hueq]
  · rcases hd : deleteStudySession id db with ⟨b, db1⟩
    rw [hd] at hdel
    simp only at hdel
    subst hdel
    simp [deleteStudySessionRoute, hd]

/-- Absent-id behavior of the note storage methods and routes. -/
theorem note_absent_facts (db : DB) (id : Int) (u : NoteUpdates)
    (hs : ∀ x ∈ db.notes, x.id ≠ id) (hu0 : u.isEmpty = false) :
    getNote id db = none ∧
    (updateNote id u db).1 = .ok none ∧
    (patchNoteRoute id u db).1.status = 404 ∧
    (deleteNote id db).1 = false ∧
    (deleteNoteRoute id db).1.status = 404 := by
  have h0 : db.notes.filter (fun n => n.id == id) = [] :=
    filter_eq_nil_of_forall _ _ (fun x hx => by
      simp only [beq_eq_false_iff_ne]
      exact hs x hx)
  have hget : getNote id db = none := by simp [getNote, h0]
  have hupd : (updateNote id u db).1 = .ok none := by
    simp [updateNote, hu0, h0]
    intro x hx
    rw [if_neg (hs x hx)]
    exact hs x hx
  have hdel : (deleteNote id db).1 = false := by
    simp [deleteNote, h0]
  refine ⟨hget, hupd, ?_, hdel, ?_⟩
  · rcases hueq : updateNote id u db with ⟨r, db1⟩
    rw [hueq] at hupd
    simp only at hupd
    subst hupd
    simp [patchNoteRoute, hueq]
  · rcases hd : deleteNote id db with ⟨b, db1⟩
    rw [hd] at hdel
    simp only at hdel
    subst hdel
    simp [deleteNoteRoute, hd]

/-- Absent-id behavior of the goal storage methods and routes. -/
theorem goal_absent_facts (db : DB) (id : Int) (u : GoalUpdates)
    (hs : ∀ x ∈ db.goals, x.id ≠ id) (hu0 : u.isEmpty = false) :
    getGoal id db = none ∧
    (updateGoal id u db).1 = .ok none ∧
    (patchGoalRoute id u db).1.status = 404 ∧
    (deleteGoal id db).1 = false ∧
    (deleteGoalRoute id db).1.status = 404 := by
  have h0 : db.goals.filter (fun g => g.id == id) = [] :=
    filter_eq_nil_of_forall _ _ (fun x hx => by
      simp only [beq_eq_false_iff_ne]
      exact hs x hx)
  have hget : getGoal id db = none := by simp [getGoal, h0]
  have hupd : (updateGoal id u db).1 = .ok none := by
    simp [updateGoal, hu0, h0]
    intro x hx
    rw [if_neg (hs x hx)]
    exact hs x hx
  have hdel : (deleteGoal id db).1 = false := by
    simp [deleteGoal, h0]
  refine ⟨hget, hupd, ?_, hdel, ?_⟩
  · rcases hueq : updateGoal id u db with ⟨r, db1⟩
    rw [hueq] at hupd
    simp only at hupd
    subst hupd
    simp [patchGoalRoute, hueq]
  · rcases hd : deleteGoal id db with ⟨b, db1⟩
    rw [hd] at hdel
    simp only at hdel
    subst hdel
    simp [deleteGoalRoute, hd]

/-- C2 (amended): for every entity and every id not present in its store,
the by-id get, nonempty-payload update, and delete all yield the explicit
not-found outcome, mapped by the handlers to 404, and absence never causes
a throw; the one exception forcing the amendment is the empty update
payload, which errors (500) regardless of the id's presence. -/
theorem absent_id_yields_not_found (db : DB) (id : Int)
    (us : SubjectUpdates) (uss : SessionUpdates) (un : NoteUpdates) (ug : GoalUpdates)
    (hs : ∀ x ∈ db.subjects, x.id ≠ id)
    (hss : ∀ x ∈ db.studySessions, x.id ≠ id)
    (hn : ∀ x ∈ db.notes, x.id ≠ id)
    (hg : ∀ x ∈ db.goals, x.id ≠ id)
    (hus : us.isEmpty = false) (huss : uss.isEmpty = false)
    (hun : un.isEmpty = false) (hug : ug.isEmpty = false) :
    (getSubject id db = none ∧ (getSubjectRoute id db).1.status = 404 ∧
      (updateSubject id us db).1 = .ok none ∧ (patchSubjectRoute id us db).1.status = 404 ∧
      (deleteSubject id db).1 = false ∧ (deleteSubjectRoute id db).1.status = 404) ∧
    (getStudySession id db = none ∧ (updateStudySession id uss db).1 = .ok none ∧
      (patchStudySessionRoute id uss db).1.status = 404 ∧
      (deleteStudySession id db).1 = false ∧ (deleteStudySessionRoute id db).1.status = 404) ∧
    (getNote id db = none ∧ (updateNote id un db).1 = .ok none ∧
      (patchNoteRoute id un db).1.status = 404 ∧
      (deleteNote id db).1 = false ∧ (deleteNoteRoute id db).1.status = 404) ∧
    (getGoal id db = none ∧ (updateGoal id ug db).1 = .ok none ∧
      (patchGoalRoute id ug db).1.status = 404 ∧
      (deleteGoal id db).1 = false ∧ (deleteGoalRoute id db).1.status = 404) :=
  ⟨subject_absent_facts db id us hs hus,
   session_absent_facts db id uss hss huss,
   note_absent_facts db id un hn hun,
   goal_absent_facts db id ug hg hug⟩

/-- Counterexample to C2 as stated: subject id 1 is absent from the empty
store, yet the PATCH with the empty update payload yields 500 — drizzle
throws "No values to set" — not the claimed 404 not-found outcome. -/
theorem absent_id_claim_counterexample :
    dbEmpty.subjects = [] ∧
    (patchSubjectRoute 1 emptySubjectUpdates dbEmpty).1.status = 500 ∧
    (patchSubjectRoute 1 emptySubjectUpdates dbEmpty).1.status ≠ 404 := by
  decide

/-- Witness for `absent_id_yields_not_found`: id 99 is absent from the
one-row sample store, and each nonempty single-field payload discharges the
nonemptiness hypotheses. -/
theorem absent_id_yields_not_found_witness :
    getSubject 99 dbSample = none ∧ (getSubjectRoute 99 dbSample).1.status = 404 ∧
    (updateSubject 99 ⟨some "X", none, none, none, none, none⟩ dbSample).1 = .ok none ∧
    (patchSubjectRoute 99 ⟨some "X", none, none, none, none, none⟩ dbSample).1.status = 404 ∧
    (deleteSubject 99 dbSample).1 = false ∧
    (deleteSubjectRoute 99 dbSample).1.status = 404 :=
  (absent_id_yields_not_found dbSample 99
    ⟨some "X", none, none, none, none, none⟩
    ⟨none, some "X", none, none, none, none, none, none⟩
    ⟨none, some "X", none, none⟩
    ⟨some "X", none, none, none, none⟩
    (by decide) (by decide) (by decide) (by decide)
    (by decide) (by decide) (by decide) (by decide)).1

/-- C3 (amended): for every non-empty date D, `GET /api/study-sessions?date=D`
returns exactly the sessions whose `date` equals D, and for every subject
id S (sent as a non-empty numeral query string), `GET /api/notes?subjectId=S`
returns exactly the notes whose `subjectId` equals S; the empty date string
is excluded because `if (date)` treats it as absent and returns all
sessions. -/
theorem query_filters_exact (db : DB) (d : String) (sidStr : String) (sid : Int)
    (hd : d ≠ "") (hsid0 : sidStr ≠ "") (hsid : jsParseInt sidStr = some sid) :
    ((getStudySessionsRoute (some d) db).1 =
        ⟨200, .sessionListJson (db.studySessions.filter (fun s => s.date == d))⟩ ∧
      ∀ s : StudySession,
        s ∈ db.studySessions.filter (fun t => t.date == d) ↔
          (s ∈ db.studySessions ∧ s.date = d)) ∧
    ((getNotesRoute (some sidStr) db).1 = ⟨200, .noteListJson (getNotesBySubject sid db)⟩ ∧
      ∀ n : Note, n ∈ getNotesBySubject sid db ↔ (n ∈ db.notes ∧ n.subjectId = sid)) := by
  have hd0 : (d == "") = false := beq_eq_false_iff_ne.mpr hd
  have hs0 : (sidStr == "") = false := beq_eq_false_iff_ne.mpr hsid0
  refine ⟨⟨?_, ?_⟩, ⟨?_, ?_⟩⟩
  · simp [getStudySessionsRoute, getStudySessionsByDate, hd0]
  · intro s
    simp [List.mem_filter]
  · simp [getNotesRoute, hs0, hsid]
  · intro n
    simp only [getNotesBySubject, sortByCreatedAt]
    rw [(List.mergeSort_perm (db.notes.filter (fun m => m.subjectId == sid)) _).mem_iff]
    simp [List.mem_filter]

/-- Counterexample to C3 as stated: with the date parameter present but
equal to the empty string, the handler falls into the untruthy branch and
returns all sessions — here a session whose `date` is "2024-01-01", not "",
so the response is not "exactly the sessions whose date equals D". -/
theorem query_filter_claim_counterexample :
    (getStudySessionsRoute (some "") dbSample).1 =
      ⟨200, .sessionListJson [sampleSession]⟩ ∧
    sampleSession.date ≠ "" := by
  decide

/-- Witness for `query_filters_exact`: a dated query and a numeric
subjectId query on the sample store. -/
theorem query_filters_exact_witness :
    (getStudySessionsRoute (some "2024-01-01") dbSample).1 =
      ⟨200, .sessionListJson
        (dbSample.studySessions.filter (fun s => s.date == "2024-01-01"))⟩ :=
  ((query_filters_exact dbSample "2024-01-01" "1" 1
    (by decide) (by decide) (by decide)).1).1

/-- C4: a create inserts exactly one row, returns it as stored — the
validated payload fields plus each declared default for the omitted ones —
under a freshly generated identifier; in particular POST `/api/subjects`
with body `{name: "Math"}` answers 201 with the id assigned, the default
color `#4F46E5`, and progress 0. -/
theorem create_returns_stored_row (db : DB) (v : InsertSubject)
    (hfresh : ∀ s ∈ db.subjects, s.id ≠ db.nextSubjectId) :
    (createSubject v db).2.subjects = db.subjects ++ [(createSubject v db).1] ∧
    (createSubject v db).1.id = db.nextSubjectId ∧
    (∀ s ∈ db.subjects, s.id ≠ (createSubject v db).1.id) ∧
    (createSubject v db).1.name = v.name ∧
    (createSubject v db).1.color = v.color.getD "#4F46E5" ∧
    (createSubject v db).1.icon = v.icon.getD "fas fa-book" ∧
    (createSubject v db).1.currentTopic = v.currentTopic.getD none ∧
    (createSubject v db).1.progress = v.progress.getD 0 ∧
    (createSubject v db).1.totalHours = v.totalHours.getD 0 ∧
    postSubjectsRoute (Json.obj [("name", Json.str "Math")]) db =
      (⟨201, .subjectJson ⟨db.nextSubjectId, "Math", "#4F46E5", "fas fa-book", none, 0, 0⟩⟩,
        { db with
            subjects := db.subjects ++
              [⟨db.nextSubjectId, "Math", "#4F46E5", "fas fa-book", none, 0, 0⟩],
            nextSubjectId := db.nextSubjectId + 1 }) :=
  ⟨rfl, rfl, hfresh, rfl, rfl, rfl, rfl, rfl, rfl, rfl⟩

/-- Witness for `create_returns_stored_row`: creating on the fresh store,
where the counter 1 is not among the (zero) stored ids. -/
theorem create_returns_stored_row_witness :
    (createSubject ⟨"Math", none, none, none, none, none⟩ dbEmpty).2.subjects =
      dbEmpty.subjects ++ [(createSubject ⟨"Math", none, none, none, none, none⟩ dbEmpty).1] :=
  (create_returns_stored_row dbEmpty ⟨"Math", none, none, none, none, none⟩ (by decide)).1

/-- C5: for an id present in the store, DELETE succeeds (`true`, 204),
deleting the same id again on the resulting store yields the not-found
outcome (`false`, 404), and in every store the boolean result is `true`
exactly when at least one row was actually removed. -/
theorem delete_success_then_not_found (db : DB) (id : Int)
    (hpresent : ∃ s ∈ db.subjects, s.id = id) :
    (deleteSubject id db).1 = true ∧
    (deleteSubjectRoute id db).1.status = 204 ∧
    (deleteSubject id (deleteSubject id db).2).1 = false ∧
    (deleteSubjectRoute id (deleteSubject id db).2).1.status = 404 ∧
    ∀ db2 : DB, ((deleteSubject id db2).1 = true ↔
      (deleteSubject id db2).2.subjects.length < db2.subjects.length) := by
  obtain ⟨s, hs, hid⟩ := hpresent
  have hne : db.subjects.filter (fun t => t.id == id) ≠ [] := by
    intro h
    have := List.filter_eq_nil_iff.mp h s hs
    simp [hid] at this
  have h1 : (deleteSubject id db).1 = true := by
    simp [deleteSubject, List.isEmpty_iff]
    exact ⟨s, hs, hid⟩
  have h2 : (deleteSubject id (deleteSubject id db).2).1 = false := by
    simp only [deleteSubject]
    rw [filter_filter_not]
    rfl
  refine ⟨h1, ?_, h2, ?_, ?_⟩
  · rcases hd : deleteSubject id db with ⟨b, db1⟩
    rw [hd] at h1
    simp only at h1
    subst h1
    simp [deleteSubjectRoute, hd]
  · rcases hd : deleteSubject id (deleteSubject id db).2 with ⟨b, db1⟩
    rw [hd] at h2
    simp only at h2
    subst h2
    simp [deleteSubjectRoute, hd]
  · intro db2
    simp only [deleteSubject]
    rw [List.length_filter_lt_length_iff_exists]
    simp [List.isEmpty_iff, List.filter_eq_nil_iff]

/-- Witness for `delete_success_then_not_found`: subject 1 is present in
the sample store and its first DELETE reports success. -/
theorem delete_success_then_not_found_witness :
    (deleteSubject 1 dbSample).1 = true :=
  (delete_success_then_not_found dbSample 1 ⟨sampleSubject, by decide, by decide⟩).1

/-- `updateSubject` on a nonempty update set: every matching row gets the
set applied, and the first updated matching row is returned. -/
theorem updateSubject_not_empty (id : Int) (u : SubjectUpdates) (db : DB)
    (hu : u.isEmpty = false) :
    updateSubject id u db =
      (.ok (((db.subjects.map (fun s => if s.id == id then applySubjectUpdates u s else s)).filter
          (fun s => s.id == id)).head?),
        { db with subjects :=
            (db.subjects.map (fun s => if s.id == id then applySubjectUpdates u s else s)) }) := by
  unfold updateSubject
  rw [if_neg (by simp [hu] : ¬ u.isEmpty = true)]

/-- `updateStudySession` on a nonempty update set. -/
theorem updateStudySession_not_empty (id : Int) (u : SessionUpdates) (db : DB)
    (hu : u.isEmpty = false) :
    updateStudySession id u db =
      (.ok (((db.studySessions.map
            (fun s => if s.id == id then applySessionUpdates u s else s)).filter
          (fun s => s.id == id)).head?),
        { db with studySessions :=
            (db.studySessions.map (fun s => if s.id == id then applySessionUpdates u s else s)) }) := by
  unfold updateStudySession
  rw [if_neg (by simp [hu] : ¬ u.isEmpty = true)]

/-- `updateNote` on a nonempty update set. -/
theorem updateNote_not_empty (id : Int) (u : NoteUpdates) (db : DB)
    (hu : u.isEmpty = false) :
    updateNote id u db =
      (.ok (((db.notes.map (fun n => if n.id == id then applyNoteUpdates u n else n)).filter
          (fun n => n.id == id)).head?),
        { db with notes :=
            (db.notes.map (fun n => if n.id == id then applyNoteUpdates u n else n)) }) := by
  unfold updateNote
  rw [if_neg (by simp [hu] : ¬ u.isEmpty = true)]

/-- `updateGoal` on a nonempty update set. -/
theorem updateGoal_not_empty (id : Int) (u : GoalUpdates) (db : DB)
    (hu : u.isEmpty = false) :
    updateGoal id u db =
      (.ok (((db.goals.map (fun g => if g.id == id then applyGoalUpdates u g else g)).filter
          (fun g => g.id == id)).head?),
        { db with goals :=
            (db.goals.map (fun g => if g.id == id then applyGoalUpdates u g else g)) }) := by
  unfold updateGoal
  rw [if_neg (by simp [hu] : ¬ u.isEmpty = true)]

/-- C6: for every existing row and every update payload, the update changes
only the supplied fields — re-fetching the row afterwards shows every field
absent from the payload unchanged (for the empty payload the store is
untouched entirely, so the frame holds there too), across all four
updatable entities. -/
theorem update_changes_only_supplied_fields (db : DB) (id : Int)
    (us : SubjectUpdates) (uss : SessionUpdates) (un : NoteUpdates) (ug : GoalUpdates) :
    (∀ s, getSubject id db = some s →
      ∃ t, getSubject id (updateSubject id us db).2 = some t ∧ t.id = s.id ∧
        (us.name = none → t.name = s.name) ∧
        (us.color = none → t.color = s.color) ∧
        (us.icon = none → t.icon = s.icon) ∧
        (us.currentTopic = none → t.currentTopic = s.currentTopic) ∧
        (us.progress = none → t.progress = s.progress) ∧
        (us.totalHours = none → t.totalHours = s.totalHours)) ∧
    (∀ s, getStudySession id db = some s →
      ∃ t, getStudySession id (updateStudySession id uss db).2 = some t ∧ t.id = s.id ∧
        (uss.subjectId = none → t.subjectId = s.subjectId) ∧
        (uss.title = none → t.title = s.title) ∧
        (uss.description = none → t.description = s.description) ∧
        (uss.startTime = none → t.startTime = s.startTime) ∧
        (uss.endTime = none → t.endTime = s.endTime) ∧
        (uss.date = none → t.date = s.date) ∧
        (uss.status = none → t.status = s.status) ∧
        (uss.actualDuration = none → t.actualDuration = s.actualDuration)) ∧
    (∀ n, getNote id db = some n →
      ∃ t, getNote id (updateNote id un db).2 = some t ∧ t.id = n.id ∧
        (un.subjectId = none → t.subjectId = n.subjectId) ∧
        (un.title = none → t.title = n.title) ∧
        (un.content = none → t.content = n.content) ∧
        (un.createdAt = none → t.createdAt = n.createdAt)) ∧
    (∀ g, getGoal id db = some g →
      ∃ t, getGoal id (updateGoal id ug db).2 = some t ∧ t.id = g.id ∧
        (ug.title = none → t.title = g.title) ∧
        (ug.description = none → t.description = g.description) ∧
        (ug.targetDate = none → t.targetDate = g.targetDate) ∧
        (ug.progress = none → t.progress = g.progress) ∧
        (ug.isCompleted = none → t.isCompleted = g.isCompleted)) := by
  refine ⟨?_, ?_, ?_, ?_⟩
  · intro s hs
    by_cases he : us.isEmpty = true
    · refine ⟨s, ?_, rfl, fun _ => rfl, fun _ => rfl, fun _ => rfl,
        fun _ => rfl, fun _ => rfl, fun _ => rfl⟩
      have hupd : updateSubject id us db = (.error "No values to set", db) := by
        unfold updateSubject
        rw [if_pos he]
      rw [hupd]
      exact hs
    · have hne : us.isEmpty = false := by simpa using he
      have hs2 : (db.subjects.filter (fun x => x.id == id)).head? = some s := hs
      refine ⟨applySubjectUpdates us s, ?_, rfl, ?_, ?_, ?_, ?_, ?_, ?_⟩
      · rw [updateSubject_not_empty id us db hne]
        show ((db.subjects.map
            (fun x => if x.id == id then applySubjectUpdates us x else x)).filter
            (fun x => x.id == id)).head? = _
        rw [filter_map_update (fun x : Subject => x.id == id) (applySubjectUpdates us)
          (fun x hx => hx) db.subjects, List.head?_map, hs2]
        rfl
      all_goals intro h
      all_goals simp [applySubjectUpdates, h]
  · intro s hs
    by_cases he : uss.isEmpty = true
    · refine ⟨s, ?_, rfl, fun _ => rfl, fun _ => rfl, fun _ => rfl, fun _ => rfl,
        fun _ => rfl, fun _ => rfl, fun _ => rfl, fun _ => rfl⟩
      have hupd : updateStudySession id uss db = (.error "No values to set", db) := by
        unfold updateStudySession
        rw [if_pos he]
      rw [hupd]
      exact hs
    · have hne : uss.isEmpty = false := by simpa using he
      have hs2 : (db.studySessions.filter (fun x => x.id == id)).head? = some s := hs
      refine ⟨applySessionUpdates uss s, ?_, rfl, ?_, ?_, ?_, ?_, ?_, ?_, ?_, ?_⟩
      · rw [updateStudySession_not_empty id uss db hne]
        show ((db.studySessions.map
            (fun x => if x.id == id then applySessionUpdates uss x else x)).filter
            (fun x => x.id == id)).head? = _
        rw [filter_map_update (fun x : StudySession => x.id == id) (applySessionUpdates uss)
          (fun x hx => hx) db.studySessions, List.head?_map, hs2]
        rfl
      all_goals intro h
      all_goals simp [applySessionUpdates, h]
  · intro n hn
    by_cases he : un.isEmpty = true
    · refine ⟨n, ?_, rfl, fun _ => rfl, fun _ => rfl, fun _ => rfl, fun _ => rfl⟩
      have hupd : updateNote id un db = (.error "No values to set", db) := by
        unfold updateNote
        rw [if_pos he]
      rw [hupd]
      exact hn
    · have hne : un.isEmpty = false := by simpa using he
      have hn2 : (db.notes.filter (fun x => x.id == id)).head? = some n := hn
      refine ⟨applyNoteUpdates un n, ?_, rfl, ?_, ?_, ?_, ?_⟩
      · rw [updateNote_not_empty id un db hne]
        show ((db.notes.map
            (fun x => if x.id == id then applyNoteUpdates un x else x)).filter
            (fun x => x.id == id)).head? = _
        rw [filter_map_update (fun x : Note => x.id == id) (applyNoteUpdates un)
          (fun x hx => hx) db.notes, List.head?_map, hn2]
        rfl
      all_goals intro h
      all_goals simp [applyNoteUpdates, h]
  · intro g hg
    by_cases he : ug.isEmpty = true
    · refine ⟨g, ?_, rfl, fun _ => rfl, fun _ => rfl, fun _ => rfl, fun _ => rfl, fun _ => rfl⟩
      have hupd : updateGoal id ug db = (.error "No values to set", db) := by
        unfold updateGoal
        rw [if_pos he]
      rw [hupd]
      exact hg
    · have hne : ug.isEmpty = false := by simpa using he
      have hg2 : (db.goals.filter (fun x => x.id == id)).head? = some g := hg
      refine ⟨applyGoalUpdates ug g, ?_, rfl, ?_, ?_, ?_, ?_, ?_⟩
      · rw [updateGoal_not_empty id ug db hne]
        show ((db.goals.map
            (fun x => if x.id == id then applyGoalUpdates ug x else x)).filter
            (fun x => x.id == id)).head? = _
        rw [filter_map_update (fun x : Goal => x.id == id) (applyGoalUpdates ug)
          (fun x hx => hx) db.goals, List.head?_map, hg2]
        rfl
      all_goals intro h
      all_goals simp [applyGoalUpdates, h]

/-- Witness for `update_changes_only_supplied_fields`: re-fetching subject 1
after a name-only PATCH shows the remaining fields unchanged. -/
theorem update_changes_only_supplied_fields_witness :
    ∃ t, getSubject 1 (updateSubject 1 ⟨some "Maths", none, none, none, none, none⟩ dbSample).2 =
        some t ∧ t.id = sampleSubject.id ∧
      ((⟨some "Maths", none, none, none, none, none⟩ : SubjectUpdates).name = none →
        t.name = sampleSubject.name) ∧
      ((⟨some "Maths", none, none, none, none, none⟩ : SubjectUpdates).color = none →
        t.color = sampleSubject.color) ∧
      ((⟨some "Maths", none, none, none, none, none⟩ : SubjectUpdates).icon = none →
        t.icon = sampleSubject.icon) ∧
      ((⟨some "Maths", none, none, none, none, none⟩ : SubjectUpdates).currentTopic = none →
        t.currentTopic = sampleSubject.currentTopic) ∧
      ((⟨some "Maths", none, none, none, none, none⟩ : SubjectUpdates).progress = none →
        t.progress = sampleSubject.progress) ∧
      ((⟨some "Maths", none, none, none, none, none⟩ : SubjectUpdates).totalHours = none →
        t.totalHours = sampleSubject.totalHours) :=
  (update_changes_only_supplied_fields dbSample 1
    ⟨some "Maths", none, none, none, none, none⟩
    ⟨none, none, none, none, none, none, none, none⟩
    ⟨none, none, none, none⟩
    ⟨none, none, none, none, none⟩).1 sampleSubject (by decide)

/-- `createOrUpdateStudyStats` when the date lookup finds a row: the update
branch runs. -/
theorem createOrUpdate_found (v : InsertStudyStats) (db : DB) (x : StudyStatsRow)
    (h : getStudyStatsByDate v.date db = some x) :
    createOrUpdateStudyStats v db =
      ((((db.studyStats.map (fun r => if r.date == v.date then applyStatsSet v r else r)).filter
          (fun r => r.date == v.date)).head?).getD (mkStatsRow 0 v),
        { db with studyStats :=
            (db.studyStats.map (fun r => if r.date == v.date then applyStatsSet v r else r)) }) := by
  unfold createOrUpdateStudyStats
  rw [h]

/-- `createOrUpdateStudyStats` when the date lookup finds nothing: the
insert branch runs. -/
theorem createOrUpdate_not_found (v : InsertStudyStats) (db : DB)
    (h : getStudyStatsByDate v.date db = none) :
    createOrUpdateStudyStats v db =
      (mkStatsRow db.nextStatsId v,
        { db with studyStats := db.studyStats ++ [mkStatsRow db.nextStatsId v],
                  nextStatsId := db.nextStatsId + 1 }) := by
  unfold createOrUpdateStudyStats
  rw [h]

/-- After one upsert on a store holding at most one row for the payload's
date, exactly one row for that date remains, carrying the payload's
`totalMinutes` whenever the payload supplied it. -/
theorem upsert_single_row (v : InsertStudyStats) (db : DB)
    (hinv : (db.studyStats.filter (fun r => r.date == v.date)).length ≤ 1) :
    ∃ r0, (createOrUpdateStudyStats v db).2.studyStats.filter
        (fun r => r.date == v.date) = [r0] ∧
      r0.date = v.date ∧
      (∀ m, v.totalMinutes = some m → r0.totalMinutes = m) := by
  rcases hfil : db.studyStats.filter (fun r => r.date == v.date) with _ | ⟨x, rest⟩
  · have hlook : getStudyStatsByDate v.date db = none := by
      simp [getStudyStatsByDate, hfil]
    refine ⟨mkStatsRow db.nextStatsId v, ?_, rfl, ?_⟩
    · rw [createOrUpdate_not_found v db hlook]
      show (db.studyStats ++ [mkStatsRow db.nextStatsId v]).filter
          (fun r => r.date == v.date) = _
      rw [List.filter_append, hfil]
      simp [mkStatsRow]
    · intro m hm
      simp [mkStatsRow, hm]
  · have hrest : rest = [] := by
      rw [hfil] at hinv
      simpa using hinv
    subst hrest
    have hlook : getStudyStatsByDate v.date db = some x := by
      simp [getStudyStatsByDate, hfil]
    refine ⟨applyStatsSet v x, ?_, rfl, ?_⟩
    · rw [createOrUpdate_found v db x hlook]
      show (db.studyStats.map
          (fun r => if r.date == v.date then applyStatsSet v r else r)).filter
          (fun r => r.date == v.date) = _
      rw [filter_map_update (fun r : StudyStatsRow => r.date == v.date) (applyStatsSet v)
        (fun r hr => by simp [applyStatsSet]) db.studyStats, hfil]
      rfl
    · intro m hm
      simp [applyStatsSet, hm]

/-- C1: `createOrUpdateStudyStats` looks a row up by date and updates it if
found, inserting otherwise (the store grows only when the lookup misses),
so two sequential POSTs to `/api/study-stats` with the same date and
different `totalMinutes` leave exactly one stored row for that date,
holding the later value — provided the store starts with at most one row
for that date, the invariant the sequential interface maintains. -/
theorem study_stats_upsert_last_write_wins (db : DB) (j1 j2 : Json)
    (s1 s2 : InsertStudyStats) (m1 m2 : Int)
    (hp1 : parseInsertStudyStats j1 = .ok s1)
    (hp2 : parseInsertStudyStats j2 = .ok s2)
    (hdate : s2.date = s1.date)
    (hm1 : s1.totalMinutes = some m1) (hm2 : s2.totalMinutes = some m2)
    (hne : m1 ≠ m2)
    (hinv : (db.studyStats.filter (fun r => r.date == s1.date)).length ≤ 1) :
    ((postStudyStatsRoute j2 (postStudyStatsRoute j1 db).2).2.studyStats.filter
        (fun r => r.date == s1.date)).map (fun r => r.totalMinutes) = [m2] ∧
    (postStudyStatsRoute j1 db).2.studyStats.length =
      (if (getStudyStatsByDate s1.date db).isSome then db.studyStats.length
       else db.studyStats.length + 1) := by
  have hroute1 : (postStudyStatsRoute j1 db).2 = (createOrUpdateStudyStats s1 db).2 := by
    simp [postStudyStatsRoute, hp1]
  have hroute2 : ∀ dbx : DB,
      (postStudyStatsRoute j2 dbx).2 = (createOrUpdateStudyStats s2 dbx).2 := by
    intro dbx
    simp [postStudyStatsRoute, hp2]
  constructor
  · obtain ⟨r1, hfil1, hd1, hmin1⟩ := upsert_single_row s1 db hinv
    have hinv2 : ((createOrUpdateStudyStats s1 db).2.studyStats.filter
        (fun r => r.date == s2.date)).length ≤ 1 := by
      rw [hdate, hfil1]
      simp
    obtain ⟨r2, hfil2, hd2, hmin2⟩ :=
      upsert_single_row s2 ((createOrUpdateStudyStats s1 db).2) hinv2
    rw [hroute1, hroute2]
    rw [hdate] at hfil2
    rw [hfil2, List.map_singleton, hmin2 m2 hm2]
  · rcases hlook : getStudyStatsByDate s1.date db with _ | x
    · rw [hroute1, createOrUpdate_not_found s1 db hlook]
      simp [hlook]
    · rw [hroute1, createOrUpdate_found s1 db x hlook]
      simp [hlook]

/-- Witness for `study_stats_upsert_last_write_wins`: two POSTs for
2024-01-01, first 10 then 20 minutes, on the fresh store end with the
single row holding 20. -/
theorem study_stats_upsert_last_write_wins_witness :
    ((postStudyStatsRoute
        (Json.obj [("date", Json.str "2024-01-01"), ("totalMinutes", Json.num 20)])
        (postStudyStatsRoute
          (Json.obj [("date", Json.str "2024-01-01"), ("totalMinutes", Json.num 10)])
          dbEmpty).2).2.studyStats.filter
      (fun r => r.date == "2024-01-01")).map (fun r => r.totalMinutes) = [20] :=
  (study_stats_upsert_last_write_wins dbEmpty
    (Json.obj [("date", Json.str "2024-01-01"), ("totalMinutes", Json.num 10)])
    (Json.obj [("date", Json.str "2024-01-01"), ("totalMinutes", Json.num 20)])
    ⟨"2024-01-01", some 10, none, none⟩ ⟨"2024-01-01", some 20, none, none⟩ 10 20
    rfl rfl rfl rfl rfl (by decide) (by decide)).1
